import Mathlib

namespace ToyXcb

/-
Shallow embedding of the toy_xcb input-translation subsystem
(src/key.rs, src/mouse.rs, src/keyboard.rs, src/window.rs, src/event.rs).

Machine integers (u8/u32/i32) are modeled as Nat (coordinates as Int),
with masking written out exactly where the source masks.  The external
collaborators (the xcb transport, the compiled xkb keymap and its state
object) are modeled as follows: the raw event stream is an explicit list
(`wait_for_event` returning an error is the end of the list), and the
xkbcommon `State` queries `key_get_one_sym` / `key_get_utf8` are function
fields of the `Keyboard` record.  Rust `unsafe` enum casts
(`mem::transmute`) are modeled as `Option`-valued lookups of the declared
discriminants: `none` means the transmute produced a value that is not a
declared variant (undefined behavior in the source).
-/

set_option maxRecDepth 8192

/-! ## Protocol constants (xcb / X11 / xkbcommon), used by the source -/

/-- X11 core event code for key press (`xcb::KEY_PRESS`). -/
def KEY_PRESS : Nat := 2
/-- X11 core event code for key release (`xcb::KEY_RELEASE`). -/
def KEY_RELEASE : Nat := 3
/-- X11 core event code for button press (`xcb::BUTTON_PRESS`). -/
def BUTTON_PRESS : Nat := 4
/-- X11 core event code for button release (`xcb::BUTTON_RELEASE`). -/
def BUTTON_RELEASE : Nat := 5
/-- X11 core event code for pointer motion (`xcb::MOTION_NOTIFY`). -/
def MOTION_NOTIFY : Nat := 6
/-- X11 core event code for pointer enter (`xcb::ENTER_NOTIFY`). -/
def ENTER_NOTIFY : Nat := 7
/-- X11 core event code for pointer leave (`xcb::LEAVE_NOTIFY`). -/
def LEAVE_NOTIFY : Nat := 8
/-- X11 core event code for client message (`xcb::CLIENT_MESSAGE`). -/
def CLIENT_MESSAGE : Nat := 33
/-- xkb extension sub-event code for a state-change notification
(`xcb::xkb::STATE_NOTIFY`). -/
def STATE_NOTIFY : Nat := 2
/-- Raw key-symbol value of the first function key (`xkb::KEY_F1`, 0xffbe). -/
def KEY_F1 : Nat := 0xffbe
/-- Raw key-symbol value of the last function key of the contiguous block
(`xkb::KEY_F24`, 0xffd5 = KEY_F1 + 23). -/
def KEY_F24 : Nat := 0xffd5
/-- Predefined X11 atom `WM_NAME` (`xcb::ATOM_WM_NAME`). -/
def ATOM_WM_NAME : Nat := 39
/-- Predefined X11 atom `STRING` (`xcb::ATOM_STRING`). -/
def ATOM_STRING : Nat := 31
/-- `xcb::PROP_MODE_REPLACE`. -/
def PROP_MODE_REPLACE : Nat := 0

/-! ## `src/key.rs`: modifier bitfield -/

/-- `key::MODS_CTRL_MASK`. -/
def MODS_CTRL_MASK : Nat := 0x01
/-- `key::MODS_SHIFT_MASK`. -/
def MODS_SHIFT_MASK : Nat := 0x02
/-- `key::MODS_META_MASK`. -/
def MODS_META_MASK : Nat := 0x04
/-- `key::MODS_ALT_MASK`. -/
def MODS_ALT_MASK : Nat := 0x08
/-- `key::MODS_SUPER_MASK`. -/
def MODS_SUPER_MASK : Nat := 0x10
/-- `key::MODS_KEY_MASK`: union of the five key bits. -/
def MODS_KEY_MASK : Nat := 0x1f
/-- `key::MODS_LEFT_MASK`. -/
def MODS_LEFT_MASK : Nat := 0x20
/-- `key::MODS_RIGHT_MASK`. -/
def MODS_RIGHT_MASK : Nat := 0x40
/-- `key::MODS_SIDE_MASK`: union of the two side bits. -/
def MODS_SIDE_MASK : Nat := 0x60
/-- `key::MODS_LEFT_CTRL`. -/
def MODS_LEFT_CTRL : Nat := MODS_LEFT_MASK ||| MODS_CTRL_MASK
/-- `key::MODS_LEFT_SHIFT`. -/
def MODS_LEFT_SHIFT : Nat := MODS_LEFT_MASK ||| MODS_SHIFT_MASK
/-- `key::MODS_LEFT_META`. -/
def MODS_LEFT_META : Nat := MODS_LEFT_MASK ||| MODS_META_MASK
/-- `key::MODS_LEFT_ALT`. -/
def MODS_LEFT_ALT : Nat := MODS_LEFT_MASK ||| MODS_ALT_MASK
/-- `key::MODS_LEFT_SUPER`. -/
def MODS_LEFT_SUPER : Nat := MODS_LEFT_MASK ||| MODS_SUPER_MASK
/-- `key::MODS_RIGHT_CTRL`. -/
def MODS_RIGHT_CTRL : Nat := MODS_RIGHT_MASK ||| MODS_CTRL_MASK
/-- `key::MODS_RIGHT_SHIFT`. -/
def MODS_RIGHT_SHIFT : Nat := MODS_RIGHT_MASK ||| MODS_SHIFT_MASK
/-- `key::MODS_RIGHT_META`. -/
def MODS_RIGHT_META : Nat := MODS_RIGHT_MASK ||| MODS_META_MASK
/-- `key::MODS_RIGHT_ALT`. -/
def MODS_RIGHT_ALT : Nat := MODS_RIGHT_MASK ||| MODS_ALT_MASK
/-- `key::MODS_RIGHT_SUPER`. -/
def MODS_RIGHT_SUPER : Nat := MODS_RIGHT_MASK ||| MODS_SUPER_MASK

/-- `key::Mods`: a modifier bitfield over one byte. -/
structure Mods where
  fields : Nat
deriving DecidableEq, Repr

/-- `Mods::new`: construction masks the byte against the defined bit layout. -/
def Mods.new (fields : Nat) : Mods :=
  { fields := fields &&& (MODS_KEY_MASK ||| MODS_SIDE_MASK) }

/-! ## `src/mouse.rs`: button bitfield -/

/-- `mouse::LEFT`. -/
def MOUSE_LEFT : Nat := 1
/-- `mouse::MIDDLE`. -/
def MOUSE_MIDDLE : Nat := 2
/-- `mouse::RIGHT`. -/
def MOUSE_RIGHT : Nat := 4
/-- `mouse::MASK`. -/
def MOUSE_MASK : Nat := 7

/-- `mouse::Buttons`: a bitfield over the three pointer buttons. -/
structure Buttons where
  fields : Nat
deriving DecidableEq, Repr

/-- `Buttons::new`. -/
def Buttons.new (fields : Nat) : Buttons := { fields := fields &&& MOUSE_MASK }

/-- `Buttons::none`. -/
def Buttons.none : Buttons := { fields := 0 }

/-- `Buttons::left`. -/
def Buttons.left : Buttons := { fields := MOUSE_LEFT }

/-- `Buttons::middle`. -/
def Buttons.middle : Buttons := { fields := MOUSE_MIDDLE }

/-- `Buttons::right`. -/
def Buttons.right : Buttons := { fields := MOUSE_RIGHT }

/-- Semantic physical key positions, translated from the `Code` enum in `src/key.rs`
(USB HID usage values; the numeric discriminants are never used by the code). -/
inductive Code where
| None
| ErrorRollOver
| POSTFail
| ErrorUndefined
| A
| B
| C
| D
| E
| F
| G
| H
| I
| J
| K
| L
| M
| N
| O
| P
| Q
| R
| S
| T
| U
| V
| W
| X
| Y
| Z
| N1
| N2
| N3
| N4
| N5
| N6
| N7
| N8
| N9
| N0
| Enter
| Escape
| Backspace
| Tab
| Space
| Minus
| Equals
| LeftBracket
| RightBracket
| Backslash
| UK_Hash
| Semicolon
| Quote
| Grave
| Comma
| Period
| Slash
| CapsLock
| F1
| F2
| F3
| F4
| F5
| F6
| F7
| F8
| F9
| F10
| F11
| F12
| PrintScreen
| ScrollLock
| Pause
| Insert
| Home
| PageUp
| Delete
| End
| PageDown
| Right
| Left
| Down
| Up
| KP_NumLock
| KP_Divide
| KP_Multiply
| KP_Subtract
| KP_Add
| KP_Enter
| KP_1
| KP_2
| KP_3
| KP_4
| KP_5
| KP_6
| KP_7
| KP_8
| KP_9
| KP_0
| KP_Period
| UK_Backslash
| KP_Equal
| F13
| F14
| F15
| F16
| F17
| F18
| F19
| F20
| F21
| F22
| F23
| F24
| Execute
| Help
| Menu
| Select
| Stop
| Again
| Undo
| Cut
| Copy
| Paste
| Find
| Mute
| VolumeUp
| VolumeDown
| LockingCapsLock
| LockingNumLock
| LockingScrollLock
| KP_Comma
| KP_EqualSign
| International1
| International2
| International3
| International4
| International5
| International6
| International7
| International8
| International9
| LANG1
| LANG2
| LANG3
| LANG4
| LANG5
| LANG6
| LANG7
| LANG8
| LANG9
| AltErase
| SysReq
| Cancel
| Clear
| Prior
| Return
| Separator
| Out
| Oper
| ClearAgain
| CrSelProps
| ExSel
| KP_00
| KP_000
| ThousandsSep
| DecimalSep
| CurrencyUnit
| CurrencySubUnit
| KP_LeftParent
| KP_RightParent
| KP_LeftCurly
| KP_RightCurly
| KP_Tab
| KP_Backspace
| KP_A
| KP_B
| KP_C
| KP_D
| KP_E
| KP_F
| KP_XOR
| KP_Pow
| KP_Percent
| KP_LeftAngle
| KP_RightAngle
| KP_BitAnd
| KP_LogicAnd
| KP_BitOr
| KP_LogicOr
| KP_Colon
| KP_Hash
| KP_Space
| KP_At
| KP_Not
| KP_MemStore
| KP_MemRecall
| KP_MemClear
| KP_MemAdd
| KP_MemSubtract
| KP_MemMultiply
| KP_MemDivide
| KP_PlusMinus
| KP_Clear
| KP_ClearEntry
| KP_Binary
| KP_Octal
| KP_Decimal
| KP_Hexadecimal
| LeftCtrl
| LeftShift
| LeftAlt
| LeftSuper
| RightCtrl
| RightShift
| RightAlt
| RightSuper
| Unknown
deriving DecidableEq, Repr

/-- Scan codes 0x00-0x1f of `build_keycode_table` in `src/keyboard.rs`. -/
def keycodeTablePart1 : List Code :=
[ .Unknown, .Unknown, .Unknown, .Unknown, .Unknown, .Unknown, .Unknown, .Unknown
, .Unknown, .Escape, .N1, .N2, .N3, .N4, .N5, .N6
, .N7, .N8, .N9, .N0, .Minus, .Equals, .Backspace, .Tab
, .Q, .W, .E, .R, .T, .Y, .U, .I ]

/-- Scan codes 0x20-0x3f of `build_keycode_table` in `src/keyboard.rs`. -/
def keycodeTablePart2 : List Code :=
[ .O, .P, .LeftBracket, .RightBracket, .Enter, .LeftCtrl, .A, .S
, .D, .F, .G, .H, .J, .K, .L, .Semicolon
, .Quote, .Grave, .LeftShift, .UK_Hash, .Z, .X, .C, .V
, .B, .N, .M, .Comma, .Period, .Slash, .RightShift, .KP_Multiply ]

/-- Scan codes 0x40-0x5f of `build_keycode_table` in `src/keyboard.rs`. -/
def keycodeTablePart3 : List Code :=
[ .LeftAlt, .Space, .CapsLock, .F1, .F2, .F3, .F4, .F5
, .F6, .F7, .F8, .F9, .F10, .KP_NumLock, .ScrollLock, .KP_7
, .KP_8, .KP_9, .KP_Subtract, .KP_4, .KP_5, .KP_6, .KP_Add, .KP_1
, .KP_2, .KP_3, .KP_0, .KP_Period, .Unknown, .Unknown, .UK_Backslash, .F11 ]

/-- Scan codes 0x60-0x7f of `build_keycode_table` in `src/keyboard.rs`. -/
def keycodeTablePart4 : List Code :=
[ .F12, .Unknown, .LANG3, .LANG4, .Unknown, .Unknown, .Unknown, .Unknown
, .KP_Enter, .RightCtrl, .KP_Divide, .PrintScreen, .RightAlt, .Unknown, .Home, .Up
, .PageUp, .Left, .Right, .End, .Down, .PageDown, .Insert, .Delete
, .Unknown, .Mute, .VolumeDown, .VolumeUp, .Unknown, .KP_Equal, .KP_PlusMinus, .Pause ]

/-- Scan codes 0x80-0x9f of `build_keycode_table` in `src/keyboard.rs`. -/
def keycodeTablePart5 : List Code :=
[ .Unknown, .KP_Decimal, .LANG1, .LANG2, .Unknown, .Unknown, .Unknown, .Menu
, .Cancel, .Again, .Unknown, .Undo, .Unknown, .Copy, .Unknown, .Paste
, .Find, .Cut, .Help, .Unknown, .Unknown, .Unknown, .Unknown, .Unknown
, .Unknown, .Unknown, .Unknown, .Unknown, .Unknown, .Unknown, .Unknown, .Unknown ]

/-- Scan codes 0xa0-0xbf of `build_keycode_table` in `src/keyboard.rs`. -/
def keycodeTablePart6 : List Code :=
[ .Unknown, .Unknown, .Unknown, .Unknown, .Unknown, .Unknown, .Unknown, .Unknown
, .Unknown, .Unknown, .Unknown, .Unknown, .Unknown, .Unknown, .Unknown, .Unknown
, .Unknown, .Unknown, .Unknown, .Unknown, .Unknown, .Unknown, .Unknown, .Unknown
, .Unknown, .Unknown, .Unknown, .Unknown, .Unknown, .Unknown, .Unknown, .Unknown ]

/-- Scan codes 0xc0-0xdf of `build_keycode_table` in `src/keyboard.rs`. -/
def keycodeTablePart7 : List Code :=
[ .Unknown, .Unknown, .Unknown, .Unknown, .Unknown, .Unknown, .Unknown, .Unknown
, .Unknown, .Unknown, .Unknown, .Unknown, .Unknown, .Unknown, .Unknown, .Unknown
, .Unknown, .Unknown, .Unknown, .Unknown, .Unknown, .Unknown, .Unknown, .Unknown
, .Unknown, .Unknown, .Unknown, .Unknown, .Unknown, .Unknown, .Unknown, .Unknown ]

/-- Scan codes 0xe0-0xff of `build_keycode_table` in `src/keyboard.rs`. -/
def keycodeTablePart8 : List Code :=
[ .Unknown, .Unknown, .Unknown, .Unknown, .Unknown, .Unknown, .Unknown, .Unknown
, .Unknown, .Unknown, .Unknown, .Unknown, .Unknown, .Unknown, .Unknown, .Unknown
, .Unknown, .Unknown, .Unknown, .Unknown, .Unknown, .Unknown, .Unknown, .Unknown
, .Unknown, .Unknown, .Unknown, .Unknown, .Unknown, .Unknown, .Unknown, .Unknown ]

/-- The dense scan-code table of `build_keycode_table` in `src/keyboard.rs`:
256 entries, indexed by raw scan code. -/
def keycode_table : List Code :=
  keycodeTablePart1 ++ keycodeTablePart2 ++ keycodeTablePart3 ++ keycodeTablePart4 ++ keycodeTablePart5 ++ keycodeTablePart6 ++ keycodeTablePart7 ++ keycodeTablePart8

/-- Semantic key symbol vocabulary, translated from the `Sym` enum in `src/key.rs`.
The Rust enum assigns explicit discriminants (bit-tagged ranges); `Sym.val` below
records them. Note the source declares F1..F16 and F18..F24: there is no F17
variant, and the lowercase Latin letters 0x61-0x7a are commented out. -/
inductive Sym where
| None
| Unknown
| Escape
| Tab
| LeftTab
| Backspace
| Return
| Delete
| SysRq
| Pause
| Clear
| CapsLock
| NumLock
| ScrollLock
| Left
| Up
| Right
| Down
| PageUp
| PageDown
| Home
| End
| Print
| Insert
| Menu
| Help
| Break
| F1
| F2
| F3
| F4
| F5
| F6
| F7
| F8
| F9
| F10
| F11
| F12
| F13
| F14
| F15
| F16
| F18
| F19
| F20
| F21
| F22
| F23
| F24
| KP_Enter
| KP_Delete
| KP_Home
| KP_Begin
| KP_End
| KP_PageUp
| KP_PageDown
| KP_Up
| KP_Down
| KP_Left
| KP_Right
| KP_Equal
| KP_Multiply
| KP_Add
| KP_Divide
| KP_Subtract
| KP_Decimal
| KP_Separator
| KP_0
| KP_1
| KP_2
| KP_3
| KP_4
| KP_6
| KP_7
| KP_8
| KP_9
| dead_grave
| dead_acute
| dead_circumflex
| dead_tilde
| dead_macron
| dead_breve
| dead_abovedot
| dead_diaeresis
| dead_abovering
| dead_doubleacute
| dead_caron
| dead_cedilla
| dead_ogonek
| dead_iota
| dead_voiced_sound
| dead_semivoiced_sound
| dead_belowdot
| dead_hook
| dead_horn
| dead_stroke
| dead_abovecomma
| dead_abovereversedcomma
| dead_doublegrave
| dead_belowring
| dead_belowmacron
| dead_belowcircumflex
| dead_belowtilde
| dead_belowbreve
| dead_belowdiaeresis
| dead_invertedbreve
| dead_belowcomma
| dead_currency
| dead_lowline
| dead_aboveverticalline
| dead_belowverticalline
| dead_longsolidusoverlay
| dead_a
| dead_A
| dead_e
| dead_E
| dead_i
| dead_I
| dead_o
| dead_O
| dead_u
| dead_U
| dead_small_schwa
| dead_capital_schwa
| ModeSwitch
| LeftCtrl
| RightCtrl
| LeftShift
| RightShift
| LeftMeta
| RightMeta
| LeftAlt
| RightAlt
| LeftSuper
| RightSuper
| Ctrl
| Shift
| Meta
| Alt
| Super
| space
| exclam
| quotedbl
| numbersign
| dollar
| percent
| ampersand
| apostrophe
| parenleft
| parenright
| asterisk
| plus
| comma
| minus
| period
| slash
| D0
| D1
| D2
| D3
| D4
| D5
| D6
| D7
| D8
| D9
| colon
| semicolon
| less
| equal
| greater
| question
| at
| A
| B
| C
| D
| E
| F
| G
| H
| I
| J
| K
| L
| M
| N
| O
| P
| Q
| R
| S
| T
| U
| V
| W
| X
| Y
| Z
| bracketleft
| backslash
| bracketright
| asciicircum
| underscore
| grave
| braceleft
| bar
| braceright
| asciitilde
| Back
| Forward
| Stop
| Refresh
| VolumeDown
| VolumeMute
| VolumeUp
| BassBoost
| BassUp
| BassDown
| TrebleUp
| TrebleDown
| MediaPlay
| MediaStop
| MediaPrevious
| MediaNext
| MediaRecord
| MediaPause
| MediaTogglePlayPause
| HomePage
| Favorites
| Search
| Standby
| OpenUrl
| MyComputer
| LaunchMail
| LaunchMedia
| Launch0
| Launch1
| Launch2
| Launch3
| Launch4
| Launch5
| Launch6
| Launch7
| Launch8
| Launch9
| LaunchA
| LaunchB
| LaunchC
| LaunchD
| LaunchE
| LaunchF
| MonBrightnessUp
| MonBrightnessDown
| KeyboardLightOnOff
| KeyboardBrightnessUp
| KeyboardBrightnessDown
| PowerOff
| WakeUp
| Eject
| ScreenSaver
| WWW
| Memo
| LightBulb
| Shop
| History
| AddFavorite
| HotLinks
| BrightnessAdjust
| Finance
| Community
| AudioRewind
| BackForward
| ApplicationLeft
| ApplicationRight
| Book
| CD
| Calculator
| ToDoList
| ClearGrab
| Close
| Copy
| Cut
| Display
| DOS
| Documents
| Excel
| Explorer
| Game
| Go
| iTouch
| LogOff
| Market
| Meeting
| MenuKB
| MenuPB
| MySites
| News
| OfficeHome
| Option
| Paste
| Phone
| Calendar
| Reply
| Reload
| RotateWindows
| RotationPB
| RotationKB
| Save
| Send
| Spell
| SplitScreen
| Support
| TaskPane
| Terminal
| Tools
| Travel
| Video
| Word
| Xfer
| ZoomIn
| ZoomOut
| Away
| Messenger
| WebCam
| MailForward
| Pictures
| Music
| Battery
| Bluetooth
| WLAN
| UWB
| AudioForward
| AudioRepeat
| AudioRandomPlay
| Subtitle
| AudioCycleTrack
| Time
| Hibernate
| View
| TopMenu
| PowerDown
| Suspend
| ContrastAdjust
| LaunchG
| LaunchH
| TouchpadToggle
| TouchpadOn
| TouchpadOff
| MicMute
| Red
| Green
| Yellow
| Blue
| ChannelUp
| ChannelDown
| Guide
| Info
| Settings
| MicVolumeUp
| MicVolumeDown
| New
| Open
| Find
| Undo
| Redo
| MediaLast
| Select
| Yes
| No
| Cancel
| Printer
| Execute
| Sleep
| Play
| Zoom
| Exit
| Context1
| Context2
| Context3
| Context4
| Call
| Hangup
| Flip
| ToggleCallHangup
| VoiceDial
| LastNumberRedial
| Camera
| CameraFocus
deriving DecidableEq, Repr


/-- Discriminant value of each `Sym` variant, exactly as assigned in `src/key.rs`
(explicit values, or implicit increments from the previous variant). -/
def Sym.val : Sym -> Nat
| .None => 0x0
| .Unknown => 0xffdf
| .Escape => 0x80000001
| .Tab => 0x80000002
| .LeftTab => 0x80000003
| .Backspace => 0x80000004
| .Return => 0x80000005
| .Delete => 0x80000006
| .SysRq => 0x80000007
| .Pause => 0x80000008
| .Clear => 0x80000009
| .CapsLock => 0x8000000a
| .NumLock => 0x8000000b
| .ScrollLock => 0x8000000c
| .Left => 0x8000000d
| .Up => 0x8000000e
| .Right => 0x8000000f
| .Down => 0x80000010
| .PageUp => 0x80000011
| .PageDown => 0x80000012
| .Home => 0x80000013
| .End => 0x80000014
| .Print => 0x80000015
| .Insert => 0x80000016
| .Menu => 0x80000017
| .Help => 0x80000018
| .Break => 0x80000019
| .F1 => 0x8000001a
| .F2 => 0x8000001b
| .F3 => 0x8000001c
| .F4 => 0x8000001d
| .F5 => 0x8000001e
| .F6 => 0x8000001f
| .F7 => 0x80000020
| .F8 => 0x80000021
| .F9 => 0x80000022
| .F10 => 0x80000023
| .F11 => 0x80000024
| .F12 => 0x80000025
| .F13 => 0x80000026
| .F14 => 0x80000027
| .F15 => 0x80000028
| .F16 => 0x80000029
| .F18 => 0x8000002a
| .F19 => 0x8000002b
| .F20 => 0x8000002c
| .F21 => 0x8000002d
| .F22 => 0x8000002e
| .F23 => 0x8000002f
| .F24 => 0x80000030
| .KP_Enter => 0x40000001
| .KP_Delete => 0x40000002
| .KP_Home => 0x40000003
| .KP_Begin => 0x40000004
| .KP_End => 0x40000005
| .KP_PageUp => 0x40000006
| .KP_PageDown => 0x40000007
| .KP_Up => 0x40000008
| .KP_Down => 0x40000009
| .KP_Left => 0x4000000a
| .KP_Right => 0x4000000b
| .KP_Equal => 0x4000000c
| .KP_Multiply => 0x4000000d
| .KP_Add => 0x4000000e
| .KP_Divide => 0x4000000f
| .KP_Subtract => 0x40000010
| .KP_Decimal => 0x40000011
| .KP_Separator => 0x40000012
| .KP_0 => 0x40000013
| .KP_1 => 0x40000014
| .KP_2 => 0x40000015
| .KP_3 => 0x40000016
| .KP_4 => 0x40000017
| .KP_6 => 0x40000018
| .KP_7 => 0x40000019
| .KP_8 => 0x4000001a
| .KP_9 => 0x4000001b
| .dead_grave => 0x800001
| .dead_acute => 0x800002
| .dead_circumflex => 0x800003
| .dead_tilde => 0x800004
| .dead_macron => 0x800005
| .dead_breve => 0x800006
| .dead_abovedot => 0x800007
| .dead_diaeresis => 0x800008
| .dead_abovering => 0x800009
| .dead_doubleacute => 0x80000a
| .dead_caron => 0x80000b
| .dead_cedilla => 0x80000c
| .dead_ogonek => 0x80000d
| .dead_iota => 0x80000e
| .dead_voiced_sound => 0x80000f
| .dead_semivoiced_sound => 0x800010
| .dead_belowdot => 0x800011
| .dead_hook => 0x800012
| .dead_horn => 0x800013
| .dead_stroke => 0x800014
| .dead_abovecomma => 0x800015
| .dead_abovereversedcomma => 0x800016
| .dead_doublegrave => 0x800017
| .dead_belowring => 0x800018
| .dead_belowmacron => 0x800019
| .dead_belowcircumflex => 0x80001a
| .dead_belowtilde => 0x80001b
| .dead_belowbreve => 0x80001c
| .dead_belowdiaeresis => 0x80001d
| .dead_invertedbreve => 0x80001e
| .dead_belowcomma => 0x80001f
| .dead_currency => 0x800020
| .dead_lowline => 0x800021
| .dead_aboveverticalline => 0x800022
| .dead_belowverticalline => 0x800023
| .dead_longsolidusoverlay => 0x800024
| .dead_a => 0x800025
| .dead_A => 0x800026
| .dead_e => 0x800027
| .dead_E => 0x800028
| .dead_i => 0x800029
| .dead_I => 0x80002a
| .dead_o => 0x80002b
| .dead_O => 0x80002c
| .dead_u => 0x80002d
| .dead_U => 0x80002e
| .dead_small_schwa => 0x80002f
| .dead_capital_schwa => 0x800030
| .ModeSwitch => 0x800031
| .LeftCtrl => 0xa10000
| .RightCtrl => 0xc10000
| .LeftShift => 0xa20000
| .RightShift => 0xc20000
| .LeftMeta => 0xa40000
| .RightMeta => 0xc40000
| .LeftAlt => 0xa80000
| .RightAlt => 0xc80000
| .LeftSuper => 0xb00000
| .RightSuper => 0xd00000
| .Ctrl => 0xe10000
| .Shift => 0xe20000
| .Meta => 0xe40000
| .Alt => 0xe80000
| .Super => 0xf00000
| .space => 0x20
| .exclam => 0x21
| .quotedbl => 0x22
| .numbersign => 0x23
| .dollar => 0x24
| .percent => 0x25
| .ampersand => 0x26
| .apostrophe => 0x27
| .parenleft => 0x28
| .parenright => 0x29
| .asterisk => 0x2a
| .plus => 0x2b
| .comma => 0x2c
| .minus => 0x2d
| .period => 0x2e
| .slash => 0x2f
| .D0 => 0x30
| .D1 => 0x31
| .D2 => 0x32
| .D3 => 0x33
| .D4 => 0x34
| .D5 => 0x35
| .D6 => 0x36
| .D7 => 0x37
| .D8 => 0x38
| .D9 => 0x39
| .colon => 0x3a
| .semicolon => 0x3b
| .less => 0x3c
| .equal => 0x3d
| .greater => 0x3e
| .question => 0x3f
| .at => 0x40
| .A => 0x41
| .B => 0x42
| .C => 0x43
| .D => 0x44
| .E => 0x45
| .F => 0x46
| .G => 0x47
| .H => 0x48
| .I => 0x49
| .J => 0x4a
| .K => 0x4b
| .L => 0x4c
| .M => 0x4d
| .N => 0x4e
| .O => 0x4f
| .P => 0x50
| .Q => 0x51
| .R => 0x52
| .S => 0x53
| .T => 0x54
| .U => 0x55
| .V => 0x56
| .W => 0x57
| .X => 0x58
| .Y => 0x59
| .Z => 0x5a
| .bracketleft => 0x5b
| .backslash => 0x5c
| .bracketright => 0x5d
| .asciicircum => 0x5e
| .underscore => 0x5f
| .grave => 0x60
| .braceleft => 0x7b
| .bar => 0x7c
| .braceright => 0x7d
| .asciitilde => 0x7e
| .Back => 0x20000001
| .Forward => 0x20000002
| .Stop => 0x20000003
| .Refresh => 0x20000004
| .VolumeDown => 0x20000005
| .VolumeMute => 0x20000006
| .VolumeUp => 0x20000007
| .BassBoost => 0x20000008
| .BassUp => 0x20000009
| .BassDown => 0x2000000a
| .TrebleUp => 0x2000000b
| .TrebleDown => 0x2000000c
| .MediaPlay => 0x2000000d
| .MediaStop => 0x2000000e
| .MediaPrevious => 0x2000000f
| .MediaNext => 0x20000010
| .MediaRecord => 0x20000011
| .MediaPause => 0x20000012
| .MediaTogglePlayPause => 0x20000013
| .HomePage => 0x20000014
| .Favorites => 0x20000015
| .Search => 0x20000016
| .Standby => 0x20000017
| .OpenUrl => 0x20000018
| .MyComputer => 0x20000019
| .LaunchMail => 0x2000001a
| .LaunchMedia => 0x2000001b
| .Launch0 => 0x2000001c
| .Launch1 => 0x2000001d
| .Launch2 => 0x2000001e
| .Launch3 => 0x2000001f
| .Launch4 => 0x20000020
| .Launch5 => 0x20000021
| .Launch6 => 0x20000022
| .Launch7 => 0x20000023
| .Launch8 => 0x20000024
| .Launch9 => 0x20000025
| .LaunchA => 0x20000026
| .LaunchB => 0x20000027
| .LaunchC => 0x20000028
| .LaunchD => 0x20000029
| .LaunchE => 0x2000002a
| .LaunchF => 0x2000002b
| .MonBrightnessUp => 0x2000002c
| .MonBrightnessDown => 0x2000002d
| .KeyboardLightOnOff => 0x2000002e
| .KeyboardBrightnessUp => 0x2000002f
| .KeyboardBrightnessDown => 0x20000030
| .PowerOff => 0x20000031
| .WakeUp => 0x20000032
| .Eject => 0x20000033
| .ScreenSaver => 0x20000034
| .WWW => 0x20000035
| .Memo => 0x20000036
| .LightBulb => 0x20000037
| .Shop => 0x20000038
| .History => 0x20000039
| .AddFavorite => 0x2000003a
| .HotLinks => 0x2000003b
| .BrightnessAdjust => 0x2000003c
| .Finance => 0x2000003d
| .Community => 0x2000003e
| .AudioRewind => 0x2000003f
| .BackForward => 0x20000040
| .ApplicationLeft => 0x20000041
| .ApplicationRight => 0x20000042
| .Book => 0x20000043
| .CD => 0x20000044
| .Calculator => 0x20000045
| .ToDoList => 0x20000046
| .ClearGrab => 0x20000047
| .Close => 0x20000048
| .Copy => 0x20000049
| .Cut => 0x2000004a
| .Display => 0x2000004b
| .DOS => 0x2000004c
| .Documents => 0x2000004d
| .Excel => 0x2000004e
| .Explorer => 0x2000004f
| .Game => 0x20000050
| .Go => 0x20000051
| .iTouch => 0x20000052
| .LogOff => 0x20000053
| .Market => 0x20000054
| .Meeting => 0x20000055
| .MenuKB => 0x20000056
| .MenuPB => 0x20000057
| .MySites => 0x20000058
| .News => 0x20000059
| .OfficeHome => 0x2000005a
| .Option => 0x2000005b
| .Paste => 0x2000005c
| .Phone => 0x2000005d
| .Calendar => 0x2000005e
| .Reply => 0x2000005f
| .Reload => 0x20000060
| .RotateWindows => 0x20000061
| .RotationPB => 0x20000062
| .RotationKB => 0x20000063
| .Save => 0x20000064
| .Send => 0x20000065
| .Spell => 0x20000066
| .SplitScreen => 0x20000067
| .Support => 0x20000068
| .TaskPane => 0x20000069
| .Terminal => 0x2000006a
| .Tools => 0x2000006b
| .Travel => 0x2000006c
| .Video => 0x2000006d
| .Word => 0x2000006e
| .Xfer => 0x2000006f
| .ZoomIn => 0x20000070
| .ZoomOut => 0x20000071
| .Away => 0x20000072
| .Messenger => 0x20000073
| .WebCam => 0x20000074
| .MailForward => 0x20000075
| .Pictures => 0x20000076
| .Music => 0x20000077
| .Battery => 0x20000078
| .Bluetooth => 0x20000079
| .WLAN => 0x2000007a
| .UWB => 0x2000007b
| .AudioForward => 0x2000007c
| .AudioRepeat => 0x2000007d
| .AudioRandomPlay => 0x2000007e
| .Subtitle => 0x2000007f
| .AudioCycleTrack => 0x20000080
| .Time => 0x20000081
| .Hibernate => 0x20000082
| .View => 0x20000083
| .TopMenu => 0x20000084
| .PowerDown => 0x20000085
| .Suspend => 0x20000086
| .ContrastAdjust => 0x20000087
| .LaunchG => 0x20000088
| .LaunchH => 0x20000089
| .TouchpadToggle => 0x2000008a
| .TouchpadOn => 0x2000008b
| .TouchpadOff => 0x2000008c
| .MicMute => 0x2000008d
| .Red => 0x2000008e
| .Green => 0x2000008f
| .Yellow => 0x20000090
| .Blue => 0x20000091
| .ChannelUp => 0x20000092
| .ChannelDown => 0x20000093
| .Guide => 0x20000094
| .Info => 0x20000095
| .Settings => 0x20000096
| .MicVolumeUp => 0x20000097
| .MicVolumeDown => 0x20000098
| .New => 0x20000099
| .Open => 0x2000009a
| .Find => 0x2000009b
| .Undo => 0x2000009c
| .Redo => 0x2000009d
| .MediaLast => 0x2000009e
| .Select => 0x2000009f
| .Yes => 0x200000a0
| .No => 0x200000a1
| .Cancel => 0x200000a2
| .Printer => 0x200000a3
| .Execute => 0x200000a4
| .Sleep => 0x200000a5
| .Play => 0x200000a6
| .Zoom => 0x200000a7
| .Exit => 0x200000a8
| .Context1 => 0x200000a9
| .Context2 => 0x200000aa
| .Context3 => 0x200000ab
| .Context4 => 0x200000ac
| .Call => 0x200000ad
| .Hangup => 0x200000ae
| .Flip => 0x200000af
| .ToggleCallHangup => 0x200000b0
| .VoiceDial => 0x200000b1
| .LastNumberRedial => 0x200000b2
| .Camera => 0x200000b3
| .CameraFocus => 0x200000b4


/-- Part 1 of the `Sym` variant enumeration (declaration order). -/
def symList1 : List Sym :=
[ .None, .Unknown, .Escape, .Tab, .LeftTab, .Backspace, .Return, .Delete
, .SysRq, .Pause, .Clear, .CapsLock, .NumLock, .ScrollLock, .Left, .Up
, .Right, .Down, .PageUp, .PageDown, .Home, .End, .Print, .Insert
, .Menu, .Help, .Break, .F1, .F2, .F3, .F4, .F5
, .F6, .F7, .F8, .F9, .F10, .F11, .F12, .F13 ]

/-- Part 2 of the `Sym` variant enumeration (declaration order). -/
def symList2 : List Sym :=
[ .F14, .F15, .F16, .F18, .F19, .F20, .F21, .F22
, .F23, .F24, .KP_Enter, .KP_Delete, .KP_Home, .KP_Begin, .KP_End, .KP_PageUp
, .KP_PageDown, .KP_Up, .KP_Down, .KP_Left, .KP_Right, .KP_Equal, .KP_Multiply, .KP_Add
, .KP_Divide, .KP_Subtract, .KP_Decimal, .KP_Separator, .KP_0, .KP_1, .KP_2, .KP_3
, .KP_4, .KP_6, .KP_7, .KP_8, .KP_9, .dead_grave, .dead_acute, .dead_circumflex ]

/-- Part 3 of the `Sym` variant enumeration (declaration order). -/
def symList3 : List Sym :=
[ .dead_tilde, .dead_macron, .dead_breve, .dead_abovedot, .dead_diaeresis, .dead_abovering, .dead_doubleacute, .dead_caron
, .dead_cedilla, .dead_ogonek, .dead_iota, .dead_voiced_sound, .dead_semivoiced_sound, .dead_belowdot, .dead_hook, .dead_horn
, .dead_stroke, .dead_abovecomma, .dead_abovereversedcomma, .dead_doublegrave, .dead_belowring, .dead_belowmacron, .dead_belowcircumflex, .dead_belowtilde
, .dead_belowbreve, .dead_belowdiaeresis, .dead_invertedbreve, .dead_belowcomma, .dead_currency, .dead_lowline, .dead_aboveverticalline, .dead_belowverticalline
, .dead_longsolidusoverlay, .dead_a, .dead_A, .dead_e, .dead_E, .dead_i, .dead_I, .dead_o ]

/-- Part 4 of the `Sym` variant enumeration (declaration order). -/
def symList4 : List Sym :=
[ .dead_O, .dead_u, .dead_U, .dead_small_schwa, .dead_capital_schwa, .ModeSwitch, .LeftCtrl, .RightCtrl
, .LeftShift, .RightShift, .LeftMeta, .RightMeta, .LeftAlt, .RightAlt, .LeftSuper, .RightSuper
, .Ctrl, .Shift, .Meta, .Alt, .Super, .space, .exclam, .quotedbl
, .numbersign, .dollar, .percent, .ampersand, .apostrophe, .parenleft, .parenright, .asterisk
, .plus, .comma, .minus, .period, .slash, .D0, .D1, .D2 ]

/-- Part 5 of the `Sym` variant enumeration (declaration order). -/
def symList5 : List Sym :=
[ .D3, .D4, .D5, .D6, .D7, .D8, .D9, .colon
, .semicolon, .less, .equal, .greater, .question, .at, .A, .B
, .C, .D, .E, .F, .G, .H, .I, .J
, .K, .L, .M, .N, .O, .P, .Q, .R
, .S, .T, .U, .V, .W, .X, .Y, .Z ]

/-- Part 6 of the `Sym` variant enumeration (declaration order). -/
def symList6 : List Sym :=
[ .bracketleft, .backslash, .bracketright, .asciicircum, .underscore, .grave, .braceleft, .bar
, .braceright, .asciitilde, .Back, .Forward, .Stop, .Refresh, .VolumeDown, .VolumeMute
, .VolumeUp, .BassBoost, .BassUp, .BassDown, .TrebleUp, .TrebleDown, .MediaPlay, .MediaStop
, .MediaPrevious, .MediaNext, .MediaRecord, .MediaPause, .MediaTogglePlayPause, .HomePage, .Favorites, .Search
, .Standby, .OpenUrl, .MyComputer, .LaunchMail, .LaunchMedia, .Launch0, .Launch1, .Launch2 ]

/-- Part 7 of the `Sym` variant enumeration (declaration order). -/
def symList7 : List Sym :=
[ .Launch3, .Launch4, .Launch5, .Launch6, .Launch7, .Launch8, .Launch9, .LaunchA
, .LaunchB, .LaunchC, .LaunchD, .LaunchE, .LaunchF, .MonBrightnessUp, .MonBrightnessDown, .KeyboardLightOnOff
, .KeyboardBrightnessUp, .KeyboardBrightnessDown, .PowerOff, .WakeUp, .Eject, .ScreenSaver, .WWW, .Memo
, .LightBulb, .Shop, .History, .AddFavorite, .HotLinks, .BrightnessAdjust, .Finance, .Community
, .AudioRewind, .BackForward, .ApplicationLeft, .ApplicationRight, .Book, .CD, .Calculator, .ToDoList ]

/-- Part 8 of the `Sym` variant enumeration (declaration order). -/
def symList8 : List Sym :=
[ .ClearGrab, .Close, .Copy, .Cut, .Display, .DOS, .Documents, .Excel
, .Explorer, .Game, .Go, .iTouch, .LogOff, .Market, .Meeting, .MenuKB
, .MenuPB, .MySites, .News, .OfficeHome, .Option, .Paste, .Phone, .Calendar
, .Reply, .Reload, .RotateWindows, .RotationPB, .RotationKB, .Save, .Send, .Spell
, .SplitScreen, .Support, .TaskPane, .Terminal, .Tools, .Travel, .Video, .Word ]

/-- Part 9 of the `Sym` variant enumeration (declaration order). -/
def symList9 : List Sym :=
[ .Xfer, .ZoomIn, .ZoomOut, .Away, .Messenger, .WebCam, .MailForward, .Pictures
, .Music, .Battery, .Bluetooth, .WLAN, .UWB, .AudioForward, .AudioRepeat, .AudioRandomPlay
, .Subtitle, .AudioCycleTrack, .Time, .Hibernate, .View, .TopMenu, .PowerDown, .Suspend
, .ContrastAdjust, .LaunchG, .LaunchH, .TouchpadToggle, .TouchpadOn, .TouchpadOff, .MicMute, .Red
, .Green, .Yellow, .Blue, .ChannelUp, .ChannelDown, .Guide, .Info, .Settings ]

/-- Part 10 of the `Sym` variant enumeration (declaration order). -/
def symList10 : List Sym :=
[ .MicVolumeUp, .MicVolumeDown, .New, .Open, .Find, .Undo, .Redo, .MediaLast
, .Select, .Yes, .No, .Cancel, .Printer, .Execute, .Sleep, .Play
, .Zoom, .Exit, .Context1, .Context2, .Context3, .Context4, .Call, .Hangup
, .Flip, .ToggleCallHangup, .VoiceDial, .LastNumberRedial, .Camera, .CameraFocus ]

/-- All `Sym` variants in declaration order. -/
def symList : List Sym :=
  symList1 ++ symList2 ++ symList3 ++ symList4 ++ symList5 ++ symList6 ++ symList7 ++ symList8 ++ symList9 ++ symList10


/-- Inverse of `Sym.val` on the declared discriminants: the variant whose value
is `v`, if any.  This is how a Rust `mem::transmute::<u32, Sym>` is modeled:
`some s` when `v` is the discriminant of a declared variant `s`, and `none`
when the transmute yields a value that is no declared variant (undefined
behavior in the source). -/
def symOfVal (v : Nat) : Option Sym :=
  symList.find? (fun s => s.val == v)

/-! ## `src/keyboard.rs`: scan-code and key-symbol resolution -/

/-- `Keyboard::get_keycode` (the table access modeled fallibly):
the source checks the index against the table length, logs and returns
`Unknown` when out of bounds, and otherwise indexes the dense table.
`List.get?` returning `none` would model an out-of-bounds index panic;
the bound check makes that impossible (logging is not modeled). -/
def get_keycode? (xcode : Nat) : Option Code :=
  if keycode_table.length ≤ xcode then some Code.Unknown
  else keycode_table.get? xcode

/-- Total value of `Keyboard::get_keycode`, used by `make_key_event`;
the `Unknown` fallback of `getD` is never taken (the table has 256 entries). -/
def get_keycode (xcode : Nat) : Code :=
  (get_keycode? xcode).getD Code.Unknown

/-- `Keyboard::get_keysym`, with its three resolution tiers in source order:
the printable Latin-1 fast path (clearing `SYM_LATIN1_SMALL_MASK`, i.e. bit
0x20, for raw values 0x61-0x7a before the numeric reinterpretation), the
contiguous F1..F24 fast path (offsetting from the `Sym.F1` discriminant), and
the sparse table.  The two `unsafe` transmutes are modeled by `symOfVal`
(`none` = transmuted value is no declared variant, undefined behavior).
`keysymMap` is the `keysym_map` field of the keyboard (`build_keysym_map`). -/
def get_keysym (keysymMap : Nat → Option Sym) (xsym : Nat) : Option Sym :=
  if 0x20 ≤ xsym ∧ xsym < 0x80 then
    let xsym := if 0x61 ≤ xsym ∧ xsym ≤ 0x7a then xsym &&& 0xffffffdf else xsym
    symOfVal xsym
  else if KEY_F1 ≤ xsym ∧ xsym ≤ KEY_F24 then
    symOfVal (Sym.F1.val + (xsym - KEY_F1))
  else match keysymMap xsym with
    | some k => some k
    | none => some Sym.Unknown

/-! ## `src/geometry.rs`, `src/event.rs`, `src/window.rs`: value types -/

/-- `geometry::Point<T>`. -/
structure Point (α : Type) where
  x : α
  y : α
deriving DecidableEq, Repr

/-- `geometry::IPoint` (`Point<i32>`). -/
abbrev IPoint := Point Int

/-- `geometry::Size<T>`. -/
structure Size (α : Type) where
  w : α
  h : α
deriving DecidableEq, Repr

/-- `geometry::ISize` (`Size<i32>`). -/
abbrev ISize := Size Int

/-- `window::State`. -/
inductive WindowState where
| Normal
| Minimized
| Maximized
| Fullscreen
| Hidden
deriving DecidableEq, Repr

/-- `event::Event`: the semantic event model. -/
inductive Event where
| Show
| Hide
| Expose
| Close
| Resize (size : ISize)
| Move (point : IPoint)
| StateChange (state : WindowState)
| Enter (point : IPoint)
| Leave (point : IPoint)
| MousePress (point : IPoint) (buttons : Buttons) (mods : Mods)
| MouseRelease (point : IPoint) (buttons : Buttons) (mods : Mods)
| MouseMove (point : IPoint) (buttons : Buttons) (mods : Mods)
| KeyPress (sym : Sym) (code : Code) (text : String)
| KeyRelease (sym : Sym) (code : Code) (text : String)
deriving DecidableEq, Repr

/-! ## Raw protocol events -/

/-- Payload of a raw protocol event.  X11 input events (key press/release,
button press/release, motion, enter/leave) share one wire layout, so they are
one variant, exactly as `xcb::cast_event` treats them interchangeably. -/
inductive Payload where
| input (detail : Nat) (event_x event_y : Int) (state : Nat)
| clientMessage (type_ : Nat) (format : Nat) (data32_0 : Nat)
| xkb (deviceId : Nat) (xkbType : Nat)
    (baseMods latchedMods lockedMods baseGroup latchedGroup lockedGroup : Nat)
| other
deriving DecidableEq, Repr

/-- A raw event as delivered by `xcb::Connection::wait_for_event`. -/
structure RawEvent where
  response_type : Nat
  payload : Payload
deriving DecidableEq, Repr

/-- `KeyPressEvent::detail` / `ButtonPressEvent::detail` after `cast_event`.
The `0` defaults of these accessors model reading a reinterpreted field of an
event whose layout does not match the cast (unspecified bytes in the source);
no theorem below exercises a mismatched cast. -/
def Payload.detail : Payload → Nat
| .input d _ _ _ => d
| _ => 0

/-- `event_x` of an input event after `cast_event`. -/
def Payload.event_x : Payload → Int
| .input _ x _ _ => x
| _ => 0

/-- `event_y` of an input event after `cast_event`. -/
def Payload.event_y : Payload → Int
| .input _ _ y _ => y
| _ => 0

/-- `state` of an input event after `cast_event`: the held-button/modifier
mask the protocol carries on motion events (unused by the source). -/
def Payload.state : Payload → Nat
| .input _ _ _ s => s
| _ => 0

/-- `ClientMessageEvent::type_` after `cast_event`. -/
def Payload.type_ : Payload → Nat
| .clientMessage t _ _ => t
| _ => 0

/-- `ClientMessageEvent::format` after `cast_event`. -/
def Payload.format : Payload → Nat
| .clientMessage _ f _ => f
| _ => 0

/-- `ClientMessageEvent::data().data32()[0]` after `cast_event`. -/
def Payload.data32_0 : Payload → Nat
| .clientMessage _ _ d => d
| _ => 0

/-- `XkbGenericEvent::device_id` after `cast_event`. -/
def Payload.device_id : Payload → Nat
| .xkb d _ _ _ _ _ _ _ => d
| _ => 0

/-- `XkbGenericEvent::xkb_type` after `cast_event`. -/
def Payload.xkb_type : Payload → Nat
| .xkb _ t _ _ _ _ _ _ => t
| _ => 0

/-- `StateNotifyEvent::base_mods` after `cast_event`. -/
def Payload.base_mods : Payload → Nat
| .xkb _ _ b _ _ _ _ _ => b
| _ => 0

/-- `StateNotifyEvent::latched_mods` after `cast_event`. -/
def Payload.latched_mods : Payload → Nat
| .xkb _ _ _ l _ _ _ _ => l
| _ => 0

/-- `StateNotifyEvent::locked_mods` after `cast_event`. -/
def Payload.locked_mods : Payload → Nat
| .xkb _ _ _ _ l _ _ _ => l
| _ => 0

/-- `StateNotifyEvent::base_group` after `cast_event`. -/
def Payload.base_group : Payload → Nat
| .xkb _ _ _ _ _ g _ _ => g
| _ => 0

/-- `StateNotifyEvent::latched_group` after `cast_event`. -/
def Payload.latched_group : Payload → Nat
| .xkb _ _ _ _ _ _ g _ => g
| _ => 0

/-- `StateNotifyEvent::locked_group` after `cast_event`. -/
def Payload.locked_group : Payload → Nat
| .xkb _ _ _ _ _ _ _ g => g
| _ => 0

/-! ## `src/keyboard.rs`: keyboard state -/

/-- The live xkbcommon modifier-resolution state (`xkb::State`), modeled by
the six masks/indices that `update_mask` writes. -/
structure XkbState where
  baseMods : Nat
  latchedMods : Nat
  lockedMods : Nat
  baseGroup : Nat
  latchedGroup : Nat
  lockedGroup : Nat
deriving DecidableEq, Repr

/-- `keyboard::Keyboard`.  The opaque xkbcommon context/keymap handles are
omitted; the two `xkb::State` queries the source performs are function
fields (external library behavior).  `keysymMap` is the `keysym_map` field:
`Keyboard::new` always sets it to `build_keysym_map()`, a fixed sparse map
from xkbcommon `KEY_*` constants (external numeric values) to `Sym`;
every claim below is independent of its contents, so it is kept as a field
rather than transcribing those constants. -/
structure Keyboard where
  device_id : Nat
  state : XkbState
  keysymMap : Nat → Option Sym
  mods : Nat
  keyGetOneSym : XkbState → Nat → Nat
  keyGetUtf8 : XkbState → Nat → String

/-- `Keyboard::get_mods`. -/
def Keyboard.get_mods (kbd : Keyboard) : Mods := Mods.new kbd.mods

/-- `Keyboard::update_state`: applies the three modifier masks and three
group indices of a state-change notification to the live state via
`xkb::State::update_mask`. -/
def Keyboard.update_state (kbd : Keyboard) (ev : RawEvent) : Keyboard :=
  { kbd with state :=
    { baseMods := ev.payload.base_mods
      latchedMods := ev.payload.latched_mods
      lockedMods := ev.payload.locked_mods
      baseGroup := ev.payload.base_group
      latchedGroup := ev.payload.latched_group
      lockedGroup := ev.payload.locked_group } }

/-- `Keyboard::make_key_event`.  Resolves scan code and symbol, updates the
running `mods` cache for the eight modifier positions (set on press, cleared
on release, where "press" is judged from the event's own response type), and
builds the semantic key event.  Returns `none` when a symbol transmute hits
no declared variant (undefined behavior in the source). -/
def Keyboard.make_key_event (kbd : Keyboard) (ev : RawEvent) (press : Bool) :
    Option (Keyboard × Event) :=
  let xcode := ev.payload.detail
  let xsym := kbd.keyGetOneSym kbd.state xcode
  let pressed := (ev.response_type &&& 0x7f) = KEY_PRESS
  let code := get_keycode xcode
  let mod_mask : Nat :=
    match code with
    | Code.LeftCtrl => MODS_LEFT_CTRL
    | Code.LeftShift => MODS_LEFT_SHIFT
    | Code.LeftAlt => MODS_LEFT_ALT
    | Code.LeftSuper => MODS_LEFT_SUPER
    | Code.RightCtrl => MODS_RIGHT_CTRL
    | Code.RightShift => MODS_RIGHT_SHIFT
    | Code.RightAlt => MODS_RIGHT_ALT
    | Code.RightSuper => MODS_RIGHT_SUPER
    | _ => 0
  let mods :=
    if mod_mask ≠ 0 then
      if pressed then kbd.mods ||| mod_mask
      else kbd.mods &&& (mod_mask ^^^ 0xff)
    else kbd.mods
  let kbd' := { kbd with mods := mods }
  match get_keysym kbd.keysymMap xsym with
  | none => none
  | some sym =>
    if press then
      some (kbd', Event.KeyPress sym code (kbd.keyGetUtf8 kbd.state xcode))
    else
      some (kbd', Event.KeyRelease sym code "")

/-! ## `src/window.rs`: the event translator -/

/-- The fixed set of interned symbol names (`Atom` in `src/window.rs`). -/
inductive Atom where
| UTF8_STRING
| WM_PROTOCOLS
| WM_DELETE_WINDOW
| WM_TRANSIENT_FOR
| WM_CHANGE_STATE
| WM_STATE
| _NET_WM_STATE
| _NET_WM_STATE_MODAL
| _NET_WM_STATE_STICKY
| _NET_WM_STATE_MAXIMIZED_VERT
| _NET_WM_STATE_MAXIMIZED_HORZ
| _NET_WM_STATE_SHADED
| _NET_WM_STATE_SKIP_TASKBAR
| _NET_WM_STATE_SKIP_PAGER
| _NET_WM_STATE_HIDDEN
| _NET_WM_STATE_FULLSCREEN
| _NET_WM_STATE_ABOVE
| _NET_WM_STATE_BELOW
| _NET_WM_STATE_DEMANDS_ATTENTION
| _NET_WM_STATE_FOCUSED
| _NET_WM_NAME
deriving DecidableEq, Repr

/-- `window::Window`.  `atoms` is the immutable name-to-handle map populated
at construction (total: construction panics on any missing atom).  The
transport connection itself is not a field; the requests `set_title` issues
on it are returned explicitly (see `Request`), and the raw event stream is
passed to `waitEvent` as a list. -/
structure Window where
  atoms : Atom → Nat
  def_screen : Int
  kbd_ev : Nat
  kbd : Keyboard
  win : Nat
  title : String

/-- One outcome of `Window::translate_event` on one raw event:
`emit` models `Some(event)` (with the window as mutated through its interior
mutability), `drop` models `None`, `consume` models the xkb branch, which
falls through to waiting for the next raw event, and `ub` models a key-symbol
transmute that produced no declared variant (undefined behavior). -/
inductive Step where
| emit (w : Window) (e : Event)
| drop (w : Window)
| consume (w : Window)
| ub (w : Window)

/-- `Window::make_mouse_event`: position from the event coordinates, buttons
decoded from the single `detail` field (1/2/3, anything else none), modifiers
from the running cache. -/
def Window.make_mouse_event (w : Window) (ev : RawEvent) :
    IPoint × Buttons × Mods :=
  let pos : IPoint := { x := ev.payload.event_x, y := ev.payload.event_y }
  let but :=
    match ev.payload.detail with
    | 1 => Buttons.left
    | 2 => Buttons.middle
    | 3 => Buttons.right
    | _ => Buttons.none
  (pos, but, w.kbd.get_mods)

/-- `Window::make_enterleave_point`. -/
def Window.make_enterleave_point (ev : RawEvent) : IPoint :=
  { x := ev.payload.event_x, y := ev.payload.event_y }

/-- `Window::translate_event`, one raw event at a time.  The dispatch mirrors
the source's `match` on `response_type & !0x80`, arm for arm, including the
catch-all arm that recurses for xkb-extension events (`Step.consume`) and
returns `None` (`Step.drop`) for everything else. -/
def Window.translate_event (w : Window) (ev : RawEvent) : Step :=
  let r := ev.response_type &&& 0x7f
  if r = KEY_PRESS then
    match w.kbd.make_key_event ev true with
    | some (kbd', e) => Step.emit { w with kbd := kbd' } e
    | none => Step.ub w
  else if r = KEY_RELEASE then
    match w.kbd.make_key_event ev false with
    | some (kbd', e) => Step.emit { w with kbd := kbd' } e
    | none => Step.ub w
  else if r = BUTTON_PRESS then
    let m := w.make_mouse_event ev
    Step.emit w (Event.MousePress m.1 m.2.1 m.2.2)
  else if r = BUTTON_RELEASE then
    let m := w.make_mouse_event ev
    Step.emit w (Event.MouseRelease m.1 m.2.1 m.2.2)
  else if r = ENTER_NOTIFY then
    Step.emit w (Event.Enter (Window.make_enterleave_point ev))
  else if r = LEAVE_NOTIFY then
    Step.emit w (Event.Leave (Window.make_enterleave_point ev))
  else if r = MOTION_NOTIFY then
    let m := w.make_mouse_event ev
    Step.emit w (Event.MouseMove m.1 m.2.1 m.2.2)
  else if r = CLIENT_MESSAGE then
    if ev.payload.type_ = w.atoms Atom.WM_PROTOCOLS ∧ ev.payload.format = 32 then
      if ev.payload.data32_0 = w.atoms Atom.WM_DELETE_WINDOW then
        Step.emit w Event.Close
      else Step.drop w
    else Step.drop w
  else if r = w.kbd_ev then
    if ev.payload.device_id = w.kbd.device_id % 256 ∧
        ev.payload.xkb_type = STATE_NOTIFY then
      Step.consume { w with kbd := w.kbd.update_state ev }
    else Step.consume w
  else Step.drop w

/-- `Window::wait_event` over an explicit raw event stream: the list models
the transport, and its exhaustion models `wait_for_event` failing (returning
`None`).  Translation of the head raw event either yields a semantic event
(`some`), yields nothing and surfaces `none` to the caller (`Step.drop`), or
is internally consumed (`Step.consume`, the xkb branch) in which case the
source recursively calls `wait_event` on the next raw event. -/
def waitEvent (w : Window) : List RawEvent → Option Event
| [] => Option.none
| ev :: rest =>
  match w.translate_event ev with
  | Step.emit _ e => some e
  | Step.drop _ => Option.none
  | Step.ub _ => Option.none
  | Step.consume w' => waitEvent w' rest

/-- A request issued on the transport connection (the subset `set_title`
can issue). -/
inductive Request where
| changeProperty (mode : Nat) (win : Nat) (property : Nat) (type_ : Nat)
    (format : Nat) (data : String)
| flush
deriving DecidableEq, Repr

/-- `Window::set_title`: returns the updated window together with the list of
requests issued on the connection, in order. -/
def Window.set_title (w : Window) (title : String) : Window × List Request :=
  if title ≠ w.title then
    let w' := { w with title := title }
    (w', [Request.changeProperty PROP_MODE_REPLACE w.win ATOM_WM_NAME
            ATOM_STRING 8 w'.title])
  else (w, [])

/-- `Window::get_title`. -/
def Window.get_title (w : Window) : String := w.title


/-! ## Concrete fixtures for witnesses and counterexamples -/

/-- A keyboard whose running modifier cache is `m`; the xkb state queries
resolve every scan code to the raw symbol 0xffffff (a sparse-table miss, so
`get_keysym` degrades to `Sym.Unknown`) and to empty text, and the sparse
table is empty.  Only the cache value matters to the claims below. -/
def testKbd (m : Nat) : Keyboard :=
  { device_id := 3
    state := { baseMods := 0, latchedMods := 0, lockedMods := 0,
               baseGroup := 0, latchedGroup := 0, lockedGroup := 0 }
    keysymMap := fun _ => Option.none
    mods := m
    keyGetOneSym := fun _ _ => 0xffffff
    keyGetUtf8 := fun _ _ => "" }

/-- A concrete window: `WM_PROTOCOLS` interned as handle 100,
`WM_DELETE_WINDOW` as handle 200, xkb extension event code 85. -/
def testWin : Window :=
  { atoms := fun a =>
      match a with
      | Atom.WM_PROTOCOLS => 100
      | Atom.WM_DELETE_WINDOW => 200
      | _ => 0
    def_screen := 0
    kbd_ev := 85
    kbd := testKbd 0
    win := 7
    title := "a" }

/-- A raw key-press event for scan code 37 (left ctrl in the scan-code table). -/
def pressEv : RawEvent := { response_type := 2, payload := Payload.input 37 0 0 0 }

/-- A raw key-release event for scan code 37. -/
def relEv : RawEvent := { response_type := 3, payload := Payload.input 37 0 0 0 }

/-- A raw pointer-motion event at (5,6): `detail` 0 (the motion hint), while
the carried `state` mask 0x200 says the middle button is held. -/
def motionEv : RawEvent := { response_type := 6, payload := Payload.input 0 5 6 0x200 }

/-- A raw button-press event: button 1 at (3,4). -/
def btnEv : RawEvent := { response_type := 4, payload := Payload.input 1 3 4 0 }

/-- A client message whose type and first data word match the handshake atoms
of `testWin` but whose format is 8, not 32. -/
def cmBadFmt : RawEvent := { response_type := 33, payload := Payload.clientMessage 100 8 200 }

/-- A client message that matches the whole close handshake of `testWin`. -/
def cmGood : RawEvent := { response_type := 33, payload := Payload.clientMessage 100 32 200 }

/-- A client message whose type is not the `WM_PROTOCOLS` handle of `testWin`. -/
def cmWrongType : RawEvent := { response_type := 33, payload := Payload.clientMessage 99 32 200 }

/-- An xkb-extension event (response type 85 = `testWin.kbd_ev`) for device 9,
which is not the bound device of `testWin`. -/
def xkbOtherDev : RawEvent := { response_type := 85, payload := Payload.xkb 9 2 0 0 0 0 0 0 }

/-- An xkb state-notify event (sub-type 2) for device 3, the bound device of
`testWin`, carrying a base-mods mask of 5. -/
def xkbBoundDev : RawEvent := { response_type := 85, payload := Payload.xkb 3 2 5 0 0 0 0 0 }

/-- A raw event of a kind the translator does not recognize (an Expose,
response type 12). -/
def unknownEv : RawEvent := { response_type := 12, payload := Payload.other }

/-- Whether `r` is one of the eight response-type codes the translator's
`match` names explicitly. -/
def isCoreEventCode (r : Nat) : Bool :=
  r == KEY_PRESS || r == KEY_RELEASE || r == BUTTON_PRESS || r == BUTTON_RELEASE ||
  r == ENTER_NOTIFY || r == LEAVE_NOTIFY || r == MOTION_NOTIFY || r == CLIENT_MESSAGE

/-- The claim's held-button-mask decoding, following the spec's words: decode
the held-button mask carried directly on the motion event (the X11 `state`
field, bits `Button1Mask` 0x100, `Button2Mask` 0x200, `Button3Mask` 0x400)
into `Buttons`.  Stated from the spec for comparison only: the source has no
such decoder. -/
def specHeldButtons (stateMask : Nat) : Buttons :=
  Buttons.new ((if stateMask &&& 0x100 ≠ 0 then MOUSE_LEFT else 0) |||
    (if stateMask &&& 0x200 ≠ 0 then MOUSE_MIDDLE else 0) |||
    (if stateMask &&& 0x400 ≠ 0 then MOUSE_RIGHT else 0))

/-! ## Claims -/

/-- Claim C1, counterexample: a client message that matches no protocol
handshake translates to nothing, yet `wait_event` surfaces the empty result
instead of blocking for the next raw event: with a button press still pending
on the live connection, the call returns `none`, which the claim forbids. -/
theorem waitEvent_unmatched_counterexample :
    testWin.translate_event cmWrongType = Step.drop testWin ∧
    waitEvent testWin [cmWrongType, btnEv] = Option.none ∧
    waitEvent testWin [btnEv] =
      some (Event.MousePress { x := 3, y := 4 } Buttons.left (Mods.new 0)) :=
  ⟨rfl, rfl, rfl⟩

/-- Claim C1 (amended): `wait_event` blocks for the next raw event and
continues only when the raw event is an xkb-extension event (response type
equal to the extension's event code) — updating the keyboard state first when
it is a state-notify for the bound device, and leaving the window unchanged
otherwise; when translation yields nothing for a client message that does not
match the full close handshake (wrong type, format, or data word) or for an
unrecognized event kind, `wait_event` returns the empty result to the caller
even while the connection is alive. -/
theorem waitEvent_loops_only_for_xkb (w : Window) (ev : RawEvent)
    (rest : List RawEvent) :
    (ev.response_type &&& 0x7f = w.kbd_ev →
      isCoreEventCode (ev.response_type &&& 0x7f) = false →
      waitEvent w (ev :: rest) =
        waitEvent
          (if ev.payload.device_id = w.kbd.device_id % 256 ∧
              ev.payload.xkb_type = STATE_NOTIFY
           then { w with kbd := w.kbd.update_state ev } else w) rest) ∧
    (ev.response_type &&& 0x7f = CLIENT_MESSAGE →
      ¬(ev.payload.type_ = w.atoms Atom.WM_PROTOCOLS ∧ ev.payload.format = 32 ∧
        ev.payload.data32_0 = w.atoms Atom.WM_DELETE_WINDOW) →
      waitEvent w (ev :: rest) = Option.none) ∧
    (isCoreEventCode (ev.response_type &&& 0x7f) = false →
      ev.response_type &&& 0x7f ≠ w.kbd_ev →
      waitEvent w (ev :: rest) = Option.none) := by
  refine ⟨fun h1 h2 => ?_, fun h1 h2 => ?_, fun h1 h2 => ?_⟩
  · simp only [isCoreEventCode, Bool.or_eq_false_iff, beq_eq_false_iff_ne, ne_eq] at h2
    obtain ⟨⟨⟨⟨⟨⟨⟨n2, n3⟩, n4⟩, n5⟩, n7⟩, n8⟩, n6⟩, n33⟩ := h2
    by_cases hd : ev.payload.device_id = w.kbd.device_id % 256 ∧
        ev.payload.xkb_type = STATE_NOTIFY
    · have e : w.translate_event ev =
          Step.consume { w with kbd := w.kbd.update_state ev } := by
        simp only [Window.translate_event]
        rw [if_neg n2, if_neg n3, if_neg n4, if_neg n5, if_neg n7, if_neg n8,
          if_neg n6, if_neg n33, if_pos h1, if_pos hd]
      simp [waitEvent, e, hd]
    · have e : w.translate_event ev = Step.consume w := by
        simp only [Window.translate_event]
        rw [if_neg n2, if_neg n3, if_neg n4, if_neg n5, if_neg n7, if_neg n8,
          if_neg n6, if_neg n33, if_pos h1, if_neg hd]
      simp [waitEvent, e, hd]
  · have e : w.translate_event ev = Step.drop w := by
      simp only [Window.translate_event]
      rw [if_neg (fun hc => absurd (h1.symm.trans hc) (by decide)),
        if_neg (fun hc => absurd (h1.symm.trans hc) (by decide)),
        if_neg (fun hc => absurd (h1.symm.trans hc) (by decide)),
        if_neg (fun hc => absurd (h1.symm.trans hc) (by decide)),
        if_neg (fun hc => absurd (h1.symm.trans hc) (by decide)),
        if_neg (fun hc => absurd (h1.symm.trans hc) (by decide)),
        if_neg (fun hc => absurd (h1.symm.trans hc) (by decide)),
        if_pos h1]
      by_cases hab : ev.payload.type_ = w.atoms Atom.WM_PROTOCOLS ∧
          ev.payload.format = 32
      · rw [if_pos hab, if_neg (fun hc => h2 ⟨hab.1, hab.2, hc⟩)]
      · rw [if_neg hab]
    simp [waitEvent, e]
  · simp only [isCoreEventCode, Bool.or_eq_false_iff, beq_eq_false_iff_ne, ne_eq] at h1
    obtain ⟨⟨⟨⟨⟨⟨⟨n2, n3⟩, n4⟩, n5⟩, n7⟩, n8⟩, n6⟩, n33⟩ := h1
    have e : w.translate_event ev = Step.drop w := by
      simp [Window.translate_event, n2, n3, n4, n5, n6, n7, n8, n33, h2]
    simp [waitEvent, e]

/-- Claim C1 amended, witness: a bound-device state-notify is consumed,
continuing with the updated keyboard state, and the pending button press is
still delivered; a client message with matching type and data word but format
8, and an Expose-class event, each surface the empty result. -/
theorem waitEvent_loops_only_for_xkb_witness :
    waitEvent testWin [xkbBoundDev, btnEv] =
      waitEvent { testWin with kbd := testWin.kbd.update_state xkbBoundDev }
        [btnEv] ∧
    waitEvent testWin [cmBadFmt] = Option.none ∧
    waitEvent testWin [unknownEv] = Option.none :=
  ⟨(waitEvent_loops_only_for_xkb testWin xkbBoundDev [btnEv]).1 (by decide)
      (by decide),
   (waitEvent_loops_only_for_xkb testWin cmBadFmt []).2.1 (by decide) (by decide),
   (waitEvent_loops_only_for_xkb testWin unknownEv []).2.2 (by decide) (by decide)⟩

/-- Claim C2, counterexample: a pointer-motion event whose carried held-button
mask says the middle button is held (state 0x200) but whose `detail` field is
0 is emitted as a `MouseMove` with an empty button set: the translator decodes
the `detail` field, not the held-button mask, contrary to the claim. -/
theorem mousemove_buttons_counterexample :
    testWin.translate_event motionEv =
      Step.emit testWin (Event.MouseMove { x := 5, y := 6 } Buttons.none (Mods.new 0)) ∧
    specHeldButtons (motionEv.payload.state) = Buttons.middle ∧
    Buttons.middle ≠ Buttons.none :=
  ⟨rfl, by decide, by decide⟩

/-- Claim C2 (amended): for every pointer-motion raw event, the translator
builds the `Buttons` of the emitted `MouseMove` from the event's single
`detail` field by the same decoding used for press/release (1,2,3 to
left/middle/right, anything else none) — ignoring the held-button mask
carried in the event's `state` field — and pairs it with the current running
`Mods`. -/
theorem mousemove_uses_detail (w : Window) (rt d : Nat) (ex ey : Int) (st : Nat)
    (h : rt &&& 0x7f = MOTION_NOTIFY) :
    w.translate_event { response_type := rt, payload := Payload.input d ex ey st } =
      Step.emit w (Event.MouseMove { x := ex, y := ey }
        (match d with
         | 1 => Buttons.left
         | 2 => Buttons.middle
         | 3 => Buttons.right
         | _ => Buttons.none)
        (Mods.new w.kbd.mods)) := by
  simp [Window.translate_event, Window.make_mouse_event, Keyboard.get_mods, h,
    Payload.detail, Payload.event_x, Payload.event_y, KEY_PRESS, KEY_RELEASE,
    BUTTON_PRESS, BUTTON_RELEASE, ENTER_NOTIFY, LEAVE_NOTIFY, MOTION_NOTIFY]

/-- Claim C2 amended, witness: a motion event with `detail` 3 and a
contradictory held-button mask is emitted as a right-button `MouseMove`. -/
theorem mousemove_uses_detail_witness :
    testWin.translate_event { response_type := 6, payload := Payload.input 3 1 2 0x100 } =
      Step.emit testWin (Event.MouseMove { x := 1, y := 2 } Buttons.right (Mods.new 0)) :=
  mousemove_uses_detail testWin 6 3 1 2 0x100 (by decide)

/-- Claim C3: the contiguous F1..F24 fast path is broken by the missing
`F17` variant of `Sym`: the 17th raw function-key value (`KEY_F1 + 16`,
xkbcommon's F17) resolves to the semantic `F18`, and the 24th
(`KEY_F1 + 23`, F24) transmutes to a value that is no declared variant
(undefined behavior, modeled as `none`). -/
theorem keysym_fkey_range_failing :
    get_keysym (fun _ => Option.none) (KEY_F1 + 16) = some Sym.F18 ∧
    get_keysym (fun _ => Option.none) (KEY_F1 + 23) = Option.none := by
  decide

/-- Claim C4: the Latin-1 fast path is total except at the boundary value
0x7F, which is in the accepted range `0x20 <= v < 0x80` but is the value of
no declared `Sym` variant: the numeric reinterpretation at 0x7F is undefined
behavior (modeled as `none`), while every other value of the range folds to a
declared variant. -/
theorem keysym_latin1_failing :
    (∀ v < 0x7f, 0x20 ≤ v → (get_keysym (fun _ => Option.none) v).isSome = true) ∧
    get_keysym (fun _ => Option.none) 0x7f = Option.none := by
  decide

/-- Claim C4, witness for the bounded totality part at v = 0x41. -/
theorem keysym_latin1_failing_witness :
    (get_keysym (fun _ => Option.none) 0x41).isSome = true :=
  keysym_latin1_failing.1 0x41 (by decide) (by decide)

/-- Claim C5: for every raw symbol value in 0x61-0x7A, `get_keysym` resolves
to the same semantic symbol as the corresponding uppercase value 0x20 below,
whatever the sparse table contains (the fast path never consults it). -/
theorem keysym_case_fold (m : Nat → Option Sym) (v : Nat)
    (h1 : 0x61 ≤ v) (h2 : v ≤ 0x7a) :
    get_keysym m v = get_keysym m (v - 0x20) := by
  interval_cases v <;> rfl

/-- Claim C5, witness at v = 0x7A (lowercase z). -/
theorem keysym_case_fold_witness :
    get_keysym (fun _ => Option.none) 0x7a = get_keysym (fun _ => Option.none) 0x5a :=
  keysym_case_fold (fun _ => Option.none) 0x7a (by decide) (by decide)

/-- Claim C6, counterexample: a client message whose type equals the interned
`WM_PROTOCOLS` handle and whose first 32-bit data word equals the interned
`WM_DELETE_WINDOW` handle, but whose format field is 8, is consumed without
emitting `Close`: the code also requires `format == 32`, which the claim does
not state. -/
theorem close_handshake_counterexample :
    cmBadFmt.payload.type_ = testWin.atoms Atom.WM_PROTOCOLS ∧
    cmBadFmt.payload.data32_0 = testWin.atoms Atom.WM_DELETE_WINDOW ∧
    testWin.translate_event cmBadFmt = Step.drop testWin :=
  ⟨rfl, rfl, rfl⟩

/-- Claim C6 (amended): a client-message raw event emits exactly `Close` when
its type equals the interned `WM_PROTOCOLS` handle, its format field is 32,
and its first 32-bit data word equals the interned `WM_DELETE_WINDOW` handle;
any other client message emits nothing and is consumed. -/
theorem close_handshake (w : Window) (rt ty fmt d0 : Nat)
    (h : rt &&& 0x7f = CLIENT_MESSAGE) :
    w.translate_event { response_type := rt, payload := Payload.clientMessage ty fmt d0 } =
      (if ty = w.atoms Atom.WM_PROTOCOLS ∧ fmt = 32 ∧ d0 = w.atoms Atom.WM_DELETE_WINDOW
       then Step.emit w Event.Close
       else Step.drop w) := by
  simp only [Window.translate_event, h, KEY_PRESS, KEY_RELEASE, BUTTON_PRESS,
    BUTTON_RELEASE, ENTER_NOTIFY, LEAVE_NOTIFY, MOTION_NOTIFY, CLIENT_MESSAGE,
    Payload.type_, Payload.format, Payload.data32_0]
  norm_num
  split_ifs with h1 h2 h3 h4 h5 <;> simp_all

/-- Claim C6 amended, witness: the full handshake match emits `Close`. -/
theorem close_handshake_witness :
    testWin.translate_event cmGood = Step.emit testWin Event.Close :=
  close_handshake testWin 33 100 32 200 (by decide)

/-- Claim C7: for every raw scan code the table lookup is defined (the dense
table has exactly 256 entries, so the checked access never goes out of
bounds and can never panic), and every scan code outside the table bounds
resolves to `Unknown`. -/
theorem keycode_lookup_total (x : Nat) :
    (get_keycode? x).isSome = true ∧ (256 ≤ x → get_keycode? x = some Code.Unknown) := by
  have hall : ∀ y < 256, (keycode_table.get? y).isSome = true := by decide
  have hlen : keycode_table.length = 256 := by rfl
  refine ⟨?_, fun h => ?_⟩
  · by_cases h : 256 ≤ x
    · simp [get_keycode?, hlen, h]
    · have hx := hall x (by omega)
      simpa [get_keycode?, hlen, h] using hx
  · simp [get_keycode?, hlen, h]

/-- Claim C7, witness at scan codes 37 (in bounds) and 300 (out of bounds). -/
theorem keycode_lookup_total_witness :
    (get_keycode? 37).isSome = true ∧ get_keycode? 300 = some Code.Unknown :=
  ⟨(keycode_lookup_total 37).1, (keycode_lookup_total 300).2 (by decide)⟩

/-- Claim C8, counterexample: starting from a cache with right-ctrl held
(0x41 = `MODS_RIGHT_CTRL`), a left-ctrl press (scan code 37) followed by a
left-ctrl release ends at 0x40, not at the pre-press value 0x41: the release
clears the ctrl bit that the two sides share. -/
theorem mods_roundtrip_counterexample :
    (((testKbd 0x41).make_key_event pressEv true).bind
        (fun p => p.1.make_key_event relEv false)).map (fun p => p.1.mods) =
      some 0x40 ∧ (0x40 : Nat) ≠ 0x41 := by
  decide

/-- Claim C8 (amended): for every starting value of the running modifier
cache in which the left-ctrl bits are clear, processing a left-ctrl press
followed by a left-ctrl release through `make_key_event` returns the cache to
its pre-press value; and for every starting value, processing the press
without a matching release leaves the left-ctrl bits set. -/
theorem mods_roundtrip :
    ∀ m < 256,
      (m &&& MODS_LEFT_CTRL = 0 →
        (((testKbd m).make_key_event pressEv true).bind
            (fun p => p.1.make_key_event relEv false)).map (fun p => p.1.mods) =
          some m) ∧
      ((testKbd m).make_key_event pressEv true).map
          (fun p => p.1.mods &&& MODS_LEFT_CTRL) = some MODS_LEFT_CTRL := by
  decide

/-- Claim C8 amended, witness: the round trip at starting cache value 0x02
(shift held), and the press-sets-the-bits clause at 0x41 (right-ctrl held). -/
theorem mods_roundtrip_witness :
    (((testKbd 0x02).make_key_event pressEv true).bind
        (fun p => p.1.make_key_event relEv false)).map (fun p => p.1.mods) =
      some 0x02 ∧
    ((testKbd 0x41).make_key_event pressEv true).map
        (fun p => p.1.mods &&& MODS_LEFT_CTRL) = some MODS_LEFT_CTRL :=
  ⟨(mods_roundtrip 0x02 (by decide)).1 (by decide),
   (mods_roundtrip 0x41 (by decide)).2⟩

/-- Claim C9, counterexample: changing the title to a different value issues
the property request but no flush: `set_title` never flushes the
connection. -/
theorem set_title_no_flush_counterexample :
    "b" ≠ testWin.title ∧
    (testWin.set_title "b").2 =
      [Request.changeProperty PROP_MODE_REPLACE testWin.win ATOM_WM_NAME
        ATOM_STRING 8 "b"] ∧
    Request.flush ∉ (testWin.set_title "b").2 :=
  ⟨by decide, rfl, by decide⟩

/-- Claim C9 (amended): `set_title` is a no-op when the new title equals the
stored title (no request issued, window unchanged); when it differs, it
stores the new title and re-issues the window-title property request (and
issues nothing else — in particular it does not flush). -/
theorem set_title_spec (w : Window) (t : String) :
    (t = w.title → w.set_title t = (w, [])) ∧
    (t ≠ w.title →
      (w.set_title t).1.title = t ∧
      (w.set_title t).2 =
        [Request.changeProperty PROP_MODE_REPLACE w.win ATOM_WM_NAME ATOM_STRING 8 t]) := by
  constructor
  · intro h
    simp [Window.set_title, h]
  · intro h
    simp [Window.set_title, h]

/-- Claim C9 amended, witness: equal title is a no-op; a different title is
stored. -/
theorem set_title_spec_witness :
    testWin.set_title "a" = (testWin, []) ∧ (testWin.set_title "b").1.title = "b" :=
  ⟨(set_title_spec testWin "a").1 rfl, ((set_title_spec testWin "b").2 (by decide)).1⟩

/-- Claim C10: for every byte, constructing a `Mods` from it and from it
pre-masked with the union of the defined key and side bit ranges yields the
same value: no undefined bit survives construction. -/
theorem mods_new_masks :
    ∀ x < 256, Mods.new x = Mods.new (x &&& (MODS_KEY_MASK ||| MODS_SIDE_MASK)) := by
  decide

/-- Claim C10, witness at the all-ones byte. -/
theorem mods_new_masks_witness :
    Mods.new 0xff = Mods.new (0xff &&& (MODS_KEY_MASK ||| MODS_SIDE_MASK)) :=
  mods_new_masks 0xff (by decide)

end ToyXcb
